import Mathlib

/-!
Shallow embedding of `care/facility/models/patient_consultation.py`
(the `PatientConsultation` Django model) and proofs of the spec claims.

Modelling conventions:
* foreign keys (patient, facility) are `Nat` identifiers;
* nullable columns are `Option _`; `DateTimeField` values are `Nat` timestamps;
* `FloatField` values (height, weight) are modelled as `ℚ` — the validators
  only compare against integer bounds, so rationals carry the behaviour;
* `IntegerField` values are `Int`;
* Python dicts that are used as key-value tables (`CSV_MAPPING`, reverse
  choice tables) are association lists in declaration order (these tables
  have pairwise distinct keys, so first-match lookup agrees with the dict);
* JSON objects inside the `lines` list are association lists from field
  name to string value.
-/

/-- Modelled from the spec: the `SuggestionChoices` codes live in
`care/facility/models/patient_base.py`, which is outside the provided
sources.  The spec fixes only that `suggestion` is a required enumerated
disposition with five values (home-isolation / admission / referral /
OP-consultation / domiciliary-care); we model the five codes as five
distinct short strings (consistent with the column's `max_length=4`). -/
def SuggestionChoices.HI : String := "HI"

/-- Modelled from the spec: the admission disposition code. -/
def SuggestionChoices.A : String := "A"

/-- Modelled from the spec: the referral disposition code. -/
def SuggestionChoices.R : String := "R"

/-- Modelled from the spec: the OP-consultation disposition code. -/
def SuggestionChoices.OP : String := "OP"

/-- Modelled from the spec: the domiciliary-care disposition code. -/
def SuggestionChoices.DC : String := "DC"

/-- `SUGGESTION_CHOICES` from the source (lines 21-27): the (code, label)
choice list of the `suggestion` field. -/
def SUGGESTION_CHOICES : List (String × String) :=
  [(SuggestionChoices.HI, "HOME ISOLATION"),
   (SuggestionChoices.A, "ADMISSION"),
   (SuggestionChoices.R, "REFERRAL"),
   (SuggestionChoices.OP, "OP CONSULTATION"),
   (SuggestionChoices.DC, "DOMICILIARY CARE")]

/-- Modelled from the spec: `reverse_choices` is imported from
`patient_base.py`, which is outside the provided sources.  The spec says the
pretty-print functions "translate stored codes to display labels via reverse
lookup tables", so `reverse_choices` builds the code-to-label table of a
choice list; as an association list this is the choice list itself. -/
def reverse_choices (choices : List (String × String)) : List (String × String) :=
  choices

/-- `REVERSE_SUGGESTION_CHOICES` from the source (line 28). -/
def REVERSE_SUGGESTION_CHOICES : List (String × String) :=
  reverse_choices SUGGESTION_CHOICES

/-- The fields of the `PatientConsultation` model that the verified claims
are about (free-text and flag columns that no claim mentions are omitted).
`suggestion` has `null=False` in the source, hence is not an `Option`. -/
structure PatientConsultation where
  patient : Nat
  facility : Nat
  suggestion : String
  referred_to : Option Nat
  admitted : Bool
  admission_date : Option Nat
  height : Option ℚ
  weight : Option ℚ
  cpk_mb : Option Int
  cuff_pressure : Option Int
  ett_tt : Option Int
  lines : List (List (String × String))
  deriving Repr, DecidableEq

/-- The check constraint `if_referral_suggested` (source lines 152-155):
`~Q(suggestion=SuggestionChoices.R) | Q(referred_to__isnull=False)`. -/
def if_referral_suggested (c : PatientConsultation) : Bool :=
  !(c.suggestion == SuggestionChoices.R) || c.referred_to.isSome

/-- The check constraint `if_admitted` (source lines 156-158):
`Q(admitted=False) | Q(admission_date__isnull=False)`. -/
def if_admitted (c : PatientConsultation) : Bool :=
  (c.admitted == false) || c.admission_date.isSome

/-- Both row-level check constraints of `Meta.constraints`. -/
def checkConstraints (c : PatientConsultation) : Bool :=
  if_referral_suggested c && if_admitted c

/-- A database write of one consultation row: the storage layer stores the
row only when every check constraint holds, otherwise the write is rejected
and the table is unchanged (`none`). -/
def insertRow (db : List PatientConsultation) (c : PatientConsultation) :
    Option (List PatientConsultation) :=
  if checkConstraints c then some (db ++ [c]) else none

/-- The referral invariant on a whole table. -/
def referralInvariant (db : List PatientConsultation) : Prop :=
  ∀ c ∈ db, c.suggestion = SuggestionChoices.R → c.referred_to ≠ none

/-- The admission invariant on a whole table. -/
def admissionInvariant (db : List PatientConsultation) : Prop :=
  ∀ c ∈ db, c.admitted = true → c.admission_date ≠ none

/-- Django's `MinValueValidator(limit)`: the value passes unless it is
strictly below the limit. -/
def minValueValidator {α : Type} [LinearOrder α] (limit v : α) : Bool :=
  decide (limit ≤ v)

/-- Django's `MaxValueValidator(limit)`: the value passes unless it is
strictly above the limit. -/
def maxValueValidator {α : Type} [LinearOrder α] (limit v : α) : Bool :=
  decide (v ≤ limit)

/-- Field-level validation of a nullable column: Django skips a field's
validators when the stored value is null, otherwise every validator of the
field must accept the value. -/
def validateField {α : Type} (validators : List (α → Bool)) :
    Option α → Bool
  | none => true
  | some v => validators.all fun f => f v

/-- The validators of the five bounded numeric columns, exactly as declared
on the model: `height` and `weight` carry `MinValueValidator(0)` (lines
73-78), `cpk_mb` carries `MinValueValidator(0), MaxValueValidator(100)`
(lines 82-87), `cuff_pressure` carries `MinValueValidator(0)` and `ett_tt`
carries `MinValueValidator(3), MaxValueValidator(10)` (lines 96-104). -/
def numericFieldsValid (c : PatientConsultation) : Bool :=
  validateField [minValueValidator (0 : ℚ)] c.height &&
  validateField [minValueValidator (0 : ℚ)] c.weight &&
  validateField [minValueValidator (0 : Int), maxValueValidator 100] c.cpk_mb &&
  validateField [minValueValidator (0 : Int)] c.cuff_pressure &&
  validateField [minValueValidator (3 : Int), maxValueValidator 10] c.ett_tt

/-- Python's `dict.get(key, default)` on an association-list table. -/
def dictGet (d : List (String × String)) (k dflt : String) : String :=
  (d.lookup k).getD dflt

/-- The `suggestion` entry of `CSV_MAKE_PRETTY` (source line 124):
`lambda x: PatientConsultation.REVERSE_SUGGESTION_CHOICES.get(x, "-")`. -/
def CSV_MAKE_PRETTY_suggestion (x : String) : String :=
  dictGet REVERSE_SUGGESTION_CHOICES x "-"

/-- The `category` entry of `CSV_MAKE_PRETTY` (source line 123):
`lambda x: REVERSE_SYMPTOM_CATEGORY_CHOICES.get(x, "-")`.  Modelled from
the spec: `REVERSE_SYMPTOM_CATEGORY_CHOICES` is imported from
`patient_base.py`, which is outside the provided sources; the spec fixes
only that it is a code-to-label reverse-lookup table, so the table is a
parameter here. -/
def CSV_MAKE_PRETTY_category (table : List (String × String)) (x : String) :
    String :=
  dictGet table x "-"

/-- `CSV_MAPPING` from the source (lines 112-120), in declaration order. -/
def CSV_MAPPING : List (String × String) :=
  [("consultation_created_date", "Date of Consultation"),
   ("admission_date", "Date of Admission"),
   ("symptoms_onset_date", "Date of Onset of Symptoms"),
   ("symptoms", "Symptoms at time of consultation"),
   ("category", "Category"),
   ("examination_details", "Examination Details"),
   ("suggestion", "Suggestion")]

/-- `CSV_MAKE_PRETTY` from the source (lines 122-125), parametrised by the
category reverse table (see `CSV_MAKE_PRETTY_category`). -/
def CSV_MAKE_PRETTY (catTable : List (String × String)) :
    List (String × (String → String)) :=
  [("category", CSV_MAKE_PRETTY_category catTable),
   ("suggestion", CSV_MAKE_PRETTY_suggestion)]

/-- Field-level validation of an incoming `suggestion` value: the field is
declared `models.CharField(max_length=4, choices=SUGGESTION_CHOICES)`
(source line 47) with neither `null=True` nor `blank=True`, so a null value
is rejected, an empty string is rejected as blank, and a non-empty value
must be one of the declared choice codes. -/
def suggestionFieldValid : Option String → Bool
  | none => false
  | some v =>
      if v = "" then false
      else decide (v ∈ SUGGESTION_CHOICES.map Prod.fst)

/-- Modelled from the spec: the `LINES_CATHETERS` JSON schema lives in
`care/facility/models/json_schema/consultation.py`, outside the provided
sources.  The spec fixes only that every element of `lines` must carry the
schema's required structural fields, so the required-field list is a
parameter: an entry conforms when each required field is present. -/
def validateLines (required : List String)
    (entries : List (List (String × String))) : Bool :=
  entries.all fun e => required.all fun f => (e.lookup f).isSome

/-- Modelled from the spec: the patient registration record (the model
`PatientRegistration` is outside the provided sources).  The spec's
referral-reassignment remark needs only the patient's current `facility`;
`name` stands for the remaining patient fields. -/
structure PatientRegistration where
  facility : Nat
  name : String
  deriving Repr, DecidableEq

/-- A fragment of the relational state: the rows that the delete semantics
of the consultation's foreign keys touch. -/
structure Database where
  patients : List Nat
  facilities : List Nat
  consultations : List PatientConsultation
  deriving Repr, DecidableEq

/-- Deleting a patient: `patient` is a `ForeignKey(..., on_delete=CASCADE)`
(source line 30), so every consultation owned by the deleted patient is
deleted with it. -/
def deletePatient (db : Database) (pid : Nat) : Database :=
  { db with
    patients := db.patients.filter fun p => p != pid
    consultations := db.consultations.filter fun c => c.patient != pid }

/-- Deleting a facility: `referred_to` is a
`ForeignKey(..., on_delete=PROTECT)` (source lines 48-50), so the delete
fails (`none`, nothing changes) while some consultation refers to the
facility; otherwise the facility row is removed and — `facility` being a
CASCADE foreign key (source line 34) — the consultations held at it go
with it. -/
def deleteFacility (db : Database) (fid : Nat) : Option Database :=
  if db.consultations.any fun c => c.referred_to == some fid then none
  else
    some { db with
           facilities := db.facilities.filter fun f => f != fid
           consultations := db.consultations.filter fun c => c.facility != fid }

/-- `PatientConsultation.save` (source lines 139-148): the whole
referral-reassignment block is commented out (it sits inside the docstring),
so the body only delegates to the base-class save, which persists the row —
modelled as the constraint-checked insert — and never touches the patient
record. -/
def PatientConsultation.save (p : PatientRegistration)
    (db : List PatientConsultation) (c : PatientConsultation) :
    PatientRegistration × Option (List PatientConsultation) :=
  (p, insertRow db c)

/-- The disabled referral reassignment, transcribed from the commented-out
block in `save` (source lines 140-147) for comparison: on a freshly created
row (`not self.pk`) or one with a referral target, the patient's facility
becomes `self.referred_to or self.facility` (the referral target when
present, else the consultation's facility). -/
def disabledReferralEffect (p : PatientRegistration) (c : PatientConsultation)
    (isNew : Bool) : PatientRegistration :=
  if isNew || c.referred_to.isSome then
    { p with facility := c.referred_to.getD c.facility }
  else p

/-- A consultation row with every nullable column null, used to build the
concrete witness rows below. -/
def blankRow : PatientConsultation :=
  { patient := 1, facility := 1, suggestion := SuggestionChoices.HI,
    referred_to := none, admitted := false, admission_date := none,
    height := none, weight := none, cpk_mb := none,
    cuff_pressure := none, ett_tt := none, lines := [] }

/-- Witness row for C1: a referral suggestion with no referral target. -/
def referralNoTargetRow : PatientConsultation :=
  { blankRow with suggestion := SuggestionChoices.R }

/-- Witness row for C2: admitted with no admission date. -/
def admittedNoDateRow : PatientConsultation :=
  { blankRow with suggestion := SuggestionChoices.A, admitted := true }

/-- Witness row for C10: non-null `referred_to` under a non-referral
suggestion, and non-null `admission_date` under `admitted = false`. -/
def converseShapeRow : PatientConsultation :=
  { blankRow with referred_to := some 2, admission_date := some 5 }

/-- Witness row for C8 and C9: a consultation referring its patient to
facility 2. -/
def referralToF2Row : PatientConsultation :=
  { blankRow with suggestion := SuggestionChoices.R, referred_to := some 2 }

/-- Witness database for C8. -/
def exampleDb : Database :=
  { patients := [1], facilities := [1, 2], consultations := [referralToF2Row] }

/-- Witness patient record for C9: registered at facility 1. -/
def examplePatient : PatientRegistration :=
  { facility := 1, name := "p" }

theorem insertRow_some_iff (db : List PatientConsultation)
    (c : PatientConsultation) (db2 : List PatientConsultation) :
    insertRow db c = some db2 ↔ checkConstraints c = true ∧ db2 = db ++ [c] := by
  unfold insertRow
  by_cases h : checkConstraints c = true
  · simp [h, eq_comm]
  · simp [h]

/-- C1: a write with `suggestion = REFERRAL` and `referred_to` null is
rejected with nothing stored, and every table reachable by a successful
write from a table satisfying the referral invariant still satisfies it. -/
theorem referral_constraint_enforced (db : List PatientConsultation)
    (c : PatientConsultation) :
    (c.suggestion = SuggestionChoices.R → c.referred_to = none →
      insertRow db c = none) ∧
    (∀ db2, insertRow db c = some db2 → referralInvariant db →
      referralInvariant db2) := by
  constructor
  · intro hs hr
    unfold insertRow checkConstraints if_referral_suggested
    simp [hs, hr]
  · intro db2 hins hinv
    rw [insertRow_some_iff] at hins
    obtain ⟨hok, rfl⟩ := hins
    intro x hx hxs
    rcases List.mem_append.mp hx with hin | hnew
    · exact hinv x hin hxs
    · have hx1 : x = c := by simpa using hnew
      subst hx1
      simp only [checkConstraints, if_referral_suggested, Bool.and_eq_true,
        Bool.or_eq_true] at hok
      rcases hok with ⟨h2 | h2, _⟩
      · exact absurd hxs (by simpa using h2)
      · simpa [Option.isSome_iff_ne_none] using h2

/-- C1 witness: the referral row with no target is rejected on the empty
table. -/
theorem referral_constraint_enforced_witness :
    insertRow [] referralNoTargetRow = none :=
  (referral_constraint_enforced [] referralNoTargetRow).1 rfl rfl

/-- C2: a write with `admitted = true` and `admission_date` null is rejected
with nothing stored, and every table reachable by a successful write from a
table satisfying the admission invariant still satisfies it. -/
theorem admission_constraint_enforced (db : List PatientConsultation)
    (c : PatientConsultation) :
    (c.admitted = true → c.admission_date = none → insertRow db c = none) ∧
    (∀ db2, insertRow db c = some db2 → admissionInvariant db →
      admissionInvariant db2) := by
  constructor
  · intro ha hd
    unfold insertRow checkConstraints if_admitted
    simp [ha, hd]
  · intro db2 hins hinv
    rw [insertRow_some_iff] at hins
    obtain ⟨hok, rfl⟩ := hins
    intro x hx hxa
    rcases List.mem_append.mp hx with hin | hnew
    · exact hinv x hin hxa
    · have hx1 : x = c := by simpa using hnew
      subst hx1
      simp only [checkConstraints, if_admitted, Bool.and_eq_true,
        Bool.or_eq_true] at hok
      rcases hok with ⟨_, h2 | h2⟩
      · exact absurd hxa (by simp_all)
      · simpa [Option.isSome_iff_ne_none] using h2

/-- C2 witness: the admitted row with no admission date is rejected on the
empty table. -/
theorem admission_constraint_enforced_witness :
    insertRow [] admittedNoDateRow = none :=
  (admission_constraint_enforced [] admittedNoDateRow).1 rfl rfl

theorem validateField_min_false {α : Type} [LinearOrder α] (q : α)
    (v : Option α) :
    validateField [minValueValidator q] v = false ↔
      ∃ x, v = some x ∧ x < q := by
  cases v <;> simp [validateField, minValueValidator]

theorem validateField_min_max_false {α : Type} [LinearOrder α] (lo hi : α)
    (v : Option α) :
    validateField [minValueValidator lo, maxValueValidator hi] v = false ↔
      ∃ x, v = some x ∧ (x < lo ∨ hi < x) := by
  cases v <;>
    simp [validateField, minValueValidator, maxValueValidator,
      imp_iff_not_or, or_comm]

/-- C3: the numeric validators reject a consultation exactly when some
bounded numeric field is out of range — a negative `height` or `weight`,
`cpk_mb` outside `[0, 100]`, a negative `cuff_pressure`, or `ett_tt`
outside `[3, 10]`; null values and in-range values always pass. -/
theorem numeric_validation_exact (c : PatientConsultation) :
    numericFieldsValid c = false ↔
      ((∃ v, c.height = some v ∧ v < 0) ∨
       (∃ v, c.weight = some v ∧ v < 0) ∨
       (∃ v, c.cpk_mb = some v ∧ (v < 0 ∨ 100 < v)) ∨
       (∃ v, c.cuff_pressure = some v ∧ v < 0) ∨
       (∃ v, c.ett_tt = some v ∧ (v < 3 ∨ 10 < v))) := by
  unfold numericFieldsValid
  simp only [Bool.and_eq_false_iff, validateField_min_false,
    validateField_min_max_false]
  constructor
  · rintro ((((h | h) | h) | h) | h)
    · exact Or.inl h
    · exact Or.inr (Or.inl h)
    · exact Or.inr (Or.inr (Or.inl h))
    · exact Or.inr (Or.inr (Or.inr (Or.inl h)))
    · exact Or.inr (Or.inr (Or.inr (Or.inr h)))
  · rintro (h | h | h | h | h)
    · exact Or.inl (Or.inl (Or.inl (Or.inl h)))
    · exact Or.inl (Or.inl (Or.inl (Or.inr h)))
    · exact Or.inl (Or.inl (Or.inr h))
    · exact Or.inl (Or.inr h)
    · exact Or.inr h

/-- C10: the two check constraints are one-directional only — any row whose
`suggestion` is not REFERRAL and whose `admitted` is false passes both
constraints and is stored, whatever its (possibly non-null) `referred_to`
and `admission_date` are. -/
theorem constraints_one_directional (db : List PatientConsultation)
    (c : PatientConsultation) (h1 : c.referred_to ≠ none)
    (h2 : c.suggestion ≠ SuggestionChoices.R) (h3 : c.admitted = false)
    (h4 : c.admission_date ≠ none) :
    insertRow db c = some (db ++ [c]) := by
  unfold insertRow checkConstraints if_referral_suggested if_admitted
  simp [h2, h3]

/-- C10 witness: a row with a non-null referral target but a non-referral
suggestion, and a non-null admission date but `admitted = false`, is
accepted and stored. -/
theorem constraints_one_directional_witness :
    insertRow [] converseShapeRow = some [converseShapeRow] :=
  constraints_one_directional [] converseShapeRow (by decide) (by decide)
    rfl (by decide)

theorem lookup_eq_none_of_not_mem_keys (d : List (String × String))
    (x : String) (hx : x ∉ d.map Prod.fst) : d.lookup x = none := by
  induction d with
  | nil => rfl
  | cons hd tl ih =>
      obtain ⟨k, v⟩ := hd
      simp only [List.map_cons, List.mem_cons] at hx
      push_neg at hx
      have hk : (x == k) = false := beq_eq_false_iff_ne.mpr hx.1
      simp only [List.lookup, hk]
      exact ih hx.2

/-- C4: each CSV pretty-print function sends a known code to its display
label and an unknown code to the placeholder `"-"` — for `suggestion`
against the concrete reverse table, and for `category` against any reverse
table (the category table is defined outside the provided sources, see
`CSV_MAKE_PRETTY_category`). -/
theorem csv_make_pretty_spec :
    (∀ code label, (code, label) ∈ REVERSE_SUGGESTION_CHOICES →
      CSV_MAKE_PRETTY_suggestion code = label) ∧
    (∀ x, x ∉ REVERSE_SUGGESTION_CHOICES.map Prod.fst →
      CSV_MAKE_PRETTY_suggestion x = "-") ∧
    (∀ table x label, List.lookup x table = some label →
      CSV_MAKE_PRETTY_category table x = label) ∧
    (∀ table x, x ∉ table.map Prod.fst →
      CSV_MAKE_PRETTY_category table x = "-") := by
  refine ⟨?_, ?_, ?_, ?_⟩
  · intro code label h
    simp only [REVERSE_SUGGESTION_CHOICES, reverse_choices, SUGGESTION_CHOICES,
      SuggestionChoices.HI, SuggestionChoices.A, SuggestionChoices.R,
      SuggestionChoices.OP, SuggestionChoices.DC, List.mem_cons,
      List.not_mem_nil, or_false, Prod.mk.injEq] at h
    rcases h with ⟨rfl, rfl⟩ | ⟨rfl, rfl⟩ | ⟨rfl, rfl⟩ | ⟨rfl, rfl⟩ |
      ⟨rfl, rfl⟩ <;> rfl
  · intro x hx
    unfold CSV_MAKE_PRETTY_suggestion dictGet
    rw [lookup_eq_none_of_not_mem_keys _ _ hx]
    rfl
  · intro table x label h
    unfold CSV_MAKE_PRETTY_category dictGet
    rw [h]
    rfl
  · intro table x hx
    unfold CSV_MAKE_PRETTY_category dictGet
    rw [lookup_eq_none_of_not_mem_keys _ _ hx]
    rfl

/-- C4 witness: the referral code maps to its label, an unknown code maps
to `"-"`, and likewise for a one-entry category table. -/
theorem csv_make_pretty_spec_witness :
    CSV_MAKE_PRETTY_suggestion "R" = "REFERRAL" ∧
    CSV_MAKE_PRETTY_suggestion "XYZ" = "-" ∧
    CSV_MAKE_PRETTY_category [("MILD", "Category-A")] "MILD" = "Category-A" ∧
    CSV_MAKE_PRETTY_category [("MILD", "Category-A")] "XYZ" = "-" :=
  ⟨csv_make_pretty_spec.1 "R" "REFERRAL" (by decide),
   csv_make_pretty_spec.2.1 "XYZ" (by decide),
   csv_make_pretty_spec.2.2.1 [("MILD", "Category-A")] "MILD" "Category-A"
     (by decide),
   csv_make_pretty_spec.2.2.2 [("MILD", "Category-A")] "XYZ" (by decide)⟩

theorem validateLines_eq_true_iff (required : List String)
    (es : List (List (String × String))) :
    validateLines required es = true ↔
      ∀ e ∈ es, ∀ f ∈ required, (List.lookup f e).isSome = true := by
  simp [validateLines, List.all_eq_true]

/-- C5: an element of `lines` that misses a required structural field of
the schema makes validation reject the write, and a list whose every
element carries all required fields passes (the schema document is outside
the provided sources, see `validateLines`). -/
theorem lines_schema_enforced (required : List String)
    (es : List (List (String × String))) :
    ((∃ e ∈ es, ∃ f ∈ required, List.lookup f e = none) →
      validateLines required es = false) ∧
    ((∀ e ∈ es, ∀ f ∈ required, (List.lookup f e).isSome = true) →
      validateLines required es = true) := by
  constructor
  · rintro ⟨e, he, f, hf, hnone⟩
    rw [← Bool.not_eq_true, validateLines_eq_true_iff]
    intro hall
    have h := hall e he f hf
    rw [hnone] at h
    exact absurd h (by simp)
  · intro h
    rw [validateLines_eq_true_iff]
    exact h

/-- C5 witness: with required fields start_date/type/site, an entry with
only a type is rejected and a complete entry is accepted. -/
theorem lines_schema_enforced_witness :
    validateLines ["start_date", "type", "site"] [[("type", "CVC")]] =
        false ∧
    validateLines ["start_date", "type", "site"]
      [[("start_date", "d"), ("type", "CVC"), ("site", "neck")]] = true :=
  ⟨(lines_schema_enforced ["start_date", "type", "site"]
      [[("type", "CVC")]]).1
      ⟨[("type", "CVC")], by decide, "start_date", by decide, by decide⟩,
   (lines_schema_enforced ["start_date", "type", "site"]
      [[("start_date", "d"), ("type", "CVC"), ("site", "neck")]]).2
      (by decide)⟩

/-- C6: the `suggestion` field rejects null and blank values, accepts a
value exactly when it is one of the five disposition codes, and the five
declared labels are home isolation, admission, referral, OP consultation
and domiciliary care. -/
theorem suggestion_required_and_choices :
    suggestionFieldValid none = false ∧
    suggestionFieldValid (some "") = false ∧
    (∀ v, suggestionFieldValid (some v) = true ↔
      (v = SuggestionChoices.HI ∨ v = SuggestionChoices.A ∨
       v = SuggestionChoices.R ∨ v = SuggestionChoices.OP ∨
       v = SuggestionChoices.DC)) ∧
    SUGGESTION_CHOICES.map Prod.snd =
      ["HOME ISOLATION", "ADMISSION", "REFERRAL", "OP CONSULTATION",
       "DOMICILIARY CARE"] := by
  refine ⟨rfl, by decide, ?_, rfl⟩
  intro v
  by_cases hv : v = ""
  · subst hv
    decide
  · simp [suggestionFieldValid, hv, SUGGESTION_CHOICES, SuggestionChoices.HI,
      SuggestionChoices.A, SuggestionChoices.R, SuggestionChoices.OP,
      SuggestionChoices.DC]

/-- C7: `CSV_MAPPING` is a fixed ordered seven-entry mapping from field
name to column title, starting at `consultation_created_date` and ending at
`suggestion`, and `CSV_MAKE_PRETTY` holds translation functions for exactly
the two exported fields `category` and `suggestion`. -/
theorem csv_mapping_shape (catTable : List (String × String)) :
    CSV_MAPPING.length = 7 ∧
    CSV_MAPPING.head? =
        some ("consultation_created_date", "Date of Consultation") ∧
    CSV_MAPPING.getLast? = some ("suggestion", "Suggestion") ∧
    (CSV_MAKE_PRETTY catTable).map Prod.fst = ["category", "suggestion"] ∧
    "category" ∈ CSV_MAPPING.map Prod.fst ∧
    "suggestion" ∈ CSV_MAPPING.map Prod.fst := by
  refine ⟨rfl, rfl, rfl, rfl, by decide, by decide⟩

/-- C8: deleting a patient cascades — no consultation of that patient
survives — while deleting a facility that is the `referred_to` target of
some existing consultation fails, leaving the state untouched. -/
theorem delete_cascade_and_protect (db : Database) (pid fid : Nat) :
    (∀ c ∈ (deletePatient db pid).consultations, c.patient ≠ pid) ∧
    ((∃ c ∈ db.consultations, c.referred_to = some fid) →
      deleteFacility db fid = none) := by
  constructor
  · intro c hc
    have h2 := (List.mem_filter.mp hc).2
    simpa using h2
  · rintro ⟨c, hc, hr⟩
    have hany : (db.consultations.any fun c => c.referred_to == some fid)
        = true :=
      List.any_eq_true.mpr ⟨c, hc, by simp [hr]⟩
    simp [deleteFacility, hany]

/-- C8 witness: in a state whose only consultation refers the patient to
facility 2, deleting facility 2 fails. -/
theorem delete_cascade_and_protect_witness :
    deleteFacility exampleDb 2 = none :=
  (delete_cascade_and_protect exampleDb 1 2).2
    ⟨referralToF2Row, by simp [exampleDb], rfl⟩

/-- C9: saving a consultation returns the patient record unchanged — even
for a referral — while the commented-out reassignment block would have
moved the patient to the referral target, so the two genuinely differ. -/
theorem save_leaves_patient_unchanged (p : PatientRegistration)
    (db : List PatientConsultation) (c : PatientConsultation) :
    (PatientConsultation.save p db c).1 = p ∧
    (∀ f, c.referred_to = some f → f ≠ p.facility →
      disabledReferralEffect p c true ≠ p) := by
  constructor
  · rfl
  · intro f hf hne
    unfold disabledReferralEffect
    simp only [Bool.true_or, if_true, hf, Option.getD_some]
    intro h
    exact hne (congrArg PatientRegistration.facility h)

/-- C9 witness: saving the referral row leaves the example patient intact,
whereas the disabled reassignment would have produced a different patient
record. -/
theorem save_leaves_patient_unchanged_witness :
    (PatientConsultation.save examplePatient [] referralToF2Row).1 =
        examplePatient ∧
    disabledReferralEffect examplePatient referralToF2Row true ≠
        examplePatient :=
  ⟨(save_leaves_patient_unchanged examplePatient [] referralToF2Row).1,
   (save_leaves_patient_unchanged examplePatient [] referralToF2Row).2 2 rfl
     (by decide)⟩
